import Mathlib

/-!
Verification of the zora-dash data-orchestration core.

The repository is a React dashboard (src/frontend/src/App.jsx and
src/frontend/src/api/client.js).  Each of the two files contains two
concatenated revisions; the later revision (the one the accessibility pass
produced, and the one the claims' line references point to) is the revision
embedded here.

Modelling choices:
* JavaScript numbers (binary doubles) are modelled as exact rationals; every
  numeric value appearing in the claims is exactly representable, so no float
  rounding is lost on them.
* Number.prototype.toFixed is modelled per ECMA-262: a negative receiver is
  negated and the rendered string gets "-" prepended; then the integer n
  closest to x * 10 ^ f is picked, ties to the larger n (round half up), and
  rendered with exactly f fractional digits.  The exponential-form branch for
  magnitudes at or above 1e21 is outside the ranges these formatters divide
  into and is not modelled.
* The ambient wall clock (the new Date() call inside timeAgo) is passed as an
  explicit first argument, in milliseconds like the timestamp argument.
* The asynchronous fetch lifecycle of the App component (useState, useEffect
  on activeTab, the async fetchData closure) is embedded as an explicit event
  machine: events are view switches and resolutions of in-flight requests,
  and the step function performs exactly the setState calls the source runs
  on each event.  The source has no staleness guard, so a resolution commits
  unconditionally.
-/

/-! ## Formatter (App.jsx lines 441-468) -/

/-- Left-pad a digit string with zeros up to the requested length. -/
def padZeros (s : String) (len : Nat) : String :=
  String.mk (List.replicate (len - s.length) '0') ++ s

/-- Render a scaled nonnegative integer n as a decimal string with f
fractional digits: the digits of n / 10 ^ f, then a point, then the digits of
n % 10 ^ f zero-padded to width f. -/
def renderFixed (n : Nat) (f : Nat) : String :=
  if f = 0 then toString n
  else toString (n / 10 ^ f) ++ "." ++ padZeros (toString (n % 10 ^ f)) f

/-- ECMA-262 toFixed on a nonnegative rational: round half up to f fractional
digits and render them all. -/
def jsToFixedNonneg (x : ℚ) (f : Nat) : String :=
  renderFixed (Int.toNat ⌊x * 10 ^ f + 1 / 2⌋) f

/-- ECMA-262 toFixed: a negative receiver is negated and the rendered string
gets "-" prepended. -/
def jsToFixed (x : ℚ) (f : Nat) : String :=
  if x < 0 then "-" ++ jsToFixedNonneg (-x) f else jsToFixedNonneg x f

/-- Embedding of formatNumber (the spec's formatCurrency), App.jsx lines
441-449.  A null / undefined argument is the none case. -/
def formatNumber : Option ℚ → String
  | none => "—"
  | some n =>
    if 1000000000 ≤ n then "$" ++ jsToFixed (n / 1000000000) 2 ++ "B"
    else if 1000000 ≤ n then "$" ++ jsToFixed (n / 1000000) 1 ++ "M"
    else if 1000 ≤ n then "$" ++ jsToFixed (n / 1000) 1 ++ "K"
    else if 1 ≤ n then "$" ++ jsToFixed n 2
    else if 1 / 100 ≤ n then "$" ++ jsToFixed n 4
    else "$" ++ jsToFixed n 6

/-- Embedding of formatChange (the spec's formatSignedDelta), App.jsx lines
451-457. -/
def formatChange : Option ℚ → String
  | none => "—"
  | some n =>
    let sign := if 0 ≤ n then "+" else ""
    if 1000000 ≤ |n| then sign ++ "$" ++ jsToFixed (n / 1000000) 1 ++ "M"
    else if 1000 ≤ |n| then sign ++ "$" ++ jsToFixed (n / 1000) 1 ++ "K"
    else sign ++ "$" ++ jsToFixed n 0

/-- Embedding of timeAgo (the spec's formatRelativeTime), App.jsx lines
459-468.  The source reads new Date() for the current moment; here that
ambient clock is the explicit first argument. -/
def timeAgo (now : ℚ) : Option ℚ → String
  | none => ""
  | some date =>
    let diff := (now - date) / 1000
    if diff < 60 then "just now"
    else if diff < 3600 then toString ⌊diff / 60⌋ ++ "m ago"
    else if diff < 86400 then toString ⌊diff / 3600⌋ ++ "h ago"
    else toString ⌊diff / 86400⌋ ++ "d ago"

/-- Evaluation of formatNumber at a given wall-clock moment: the source body
never reads the clock, so the moment is ignored. -/
def formatNumberAt (_clock : ℚ) (n : Option ℚ) : String :=
  formatNumber n

/-- Evaluation of formatChange at a given wall-clock moment: the source body
never reads the clock, so the moment is ignored. -/
def formatChangeAt (_clock : ℚ) (n : Option ℚ) : String :=
  formatChange n

/-! ## Remote Data Gateway (api/client.js lines 23-27) -/

/-- The outcome the fetch call inside fetchJson can produce: the promise
rejects at transport level, or an HTTP response arrives whose body either
parses to a JSON value or fails to parse (the rejection of res.json()). -/
inductive FetchOutcome (α : Type) where
  | transportFailure (msg : String)
  | httpResponse (status : Nat) (body : Except String α)

/-- Embedding of fetchJson, api/client.js lines 23-27: a transport failure
propagates as-is; res.ok (status 200-299) returns the parsed body or the
body's own parse failure; otherwise the thrown error message carries the
HTTP status. -/
def fetchJson {α : Type} : FetchOutcome α → Except String α
  | .transportFailure m => .error m
  | .httpResponse status body =>
    if 200 ≤ status ∧ status ≤ 299 then body
    else .error ("API error: " ++ toString status)

/-! ## View Selector and Snapshot Fetch Controller (App.jsx lines 670-764) -/

/-- The tab identifiers of the TABS constant, App.jsx lines 670-677 (labels
and icons are presentation only and are not modelled). -/
def TABS : List String :=
  ["overview", "gainers", "volume", "valuable", "new", "traders"]

/-- The gateway call each branch of fetchData issues, with its count
argument, App.jsx lines 738-756. -/
inductive ApiQuery where
  | overview
  | gainers (count : Nat)
  | volume (count : Nat)
  | valuable (count : Nat)
  | newCoins (count : Nat)
  | traders (count : Nat)
deriving DecidableEq

/-- The branch dispatch of fetchData, App.jsx lines 738-756: which query a
given activeTab value issues; an identifier matching no branch issues
nothing. -/
def queryFor : String → Option ApiQuery
  | "overview" => some ApiQuery.overview
  | "gainers" => some (ApiQuery.gainers 50)
  | "volume" => some (ApiQuery.volume 50)
  | "valuable" => some (ApiQuery.valuable 50)
  | "new" => some (ApiQuery.newCoins 50)
  | "traders" => some (ApiQuery.traders 100)
  | _ => none

/-- The React state of the App component, App.jsx lines 727-731, plus the
multiset of in-flight fetchData closures (each remembers the activeTab value
it was created with, since its branch already tested it).  The committed
data object is tagged with the view whose branch committed it. -/
structure AppState (α : Type) where
  activeTab : String
  loading : Bool
  data : Option (String × α)
  error : Option String
  pending : List String

/-- How an in-flight request can come back: the awaited api call fulfills
with a payload, or it rejects carrying some raw message. -/
inductive FetchResult (α : Type) where
  | ok (payload : α)
  | err (rawMsg : String)

/-- The events of the single-threaded UI loop: the user switches the active
tab, or an in-flight fetch issued for a given view resolves. -/
inductive Ev (α : Type) where
  | switch (v : String)
  | resolve (v : String) (r : FetchResult α)

/-- The constant user-facing message set by the catch block of fetchData,
App.jsx line 759. -/
def fetchErrorMessage : String := "Failed to load data. Please try again."

/-- One event of the App lifecycle, exactly as the source reacts to it.
Switch: setActiveTab bails out on an unchanged value; otherwise the effect
re-runs, does setLoading(true) and setError(null) and awaits the branch's
api call — one new in-flight request; an identifier with no branch awaits
nothing, so the closure runs straight to its final setLoading(false).
Resolve: the closure continues with no comparison against the current
activeTab — success runs setData with the payload under its own branch's
view and then setLoading(false); rejection runs the catch, which ignores the
raw message and does setError(fetchErrorMessage), then setLoading(false). -/
def step {α : Type} (s : AppState α) : Ev α → AppState α
  | .switch v =>
    if v = s.activeTab then s
    else if (queryFor v).isSome then
      { s with activeTab := v, loading := true, error := none, pending := v :: s.pending }
    else
      { s with activeTab := v, loading := false, error := none }
  | .resolve v r =>
    match r with
    | .ok p => { s with data := some (v, p), loading := false, pending := s.pending.erase v }
    | .err _ => { s with error := some fetchErrorMessage, loading := false, pending := s.pending.erase v }

/-- Replay a sequence of events from a state. -/
def run {α : Type} (s : AppState α) (evs : List (Ev α)) : AppState α :=
  evs.foldl step s

/-- The state right after mount: useState gives activeTab overview, loading
true, empty data, null error, and the mount effect has issued the overview
fetch. -/
def initialState (α : Type) : AppState α :=
  { activeTab := "overview", loading := true, data := none, error := none,
    pending := ["overview"] }

/-- Whether every switch event of a trace targets a member of TABS; the
rendered tab bar only ever calls onChange with ids drawn from TABS. -/
def evTargetsTabs {α : Type} : Ev α → Bool
  | .switch v => TABS.contains v
  | .resolve _ _ => true

/-- The view identifier set exactly as the spec's data model enumerates it,
stated from the spec's words for comparison with the TABS constant of the
source. -/
def specViewIds : List String :=
  ["overview", "topics", "gainers", "volume", "valuable", "new", "active",
   "creators", "traders", "whales"]

/-! ## Live Alert Reconciler (spec sections 4.3 and 3) -/

/-- Modelled from the spec: an AlertEvent record of the live whale channel,
with fields transactionHash (unique key), timestamp, amountUsd and
direction.  The reconciler itself is absent from src/ — the embedded App
revision has no whales view and never opens the push channel; only the
gateway declarations getWhales and getWhaleWsUrl exist in
src/frontend/src/api/client.js. -/
structure AlertEvent where
  transactionHash : String
  timestamp : ℚ
  amountUsd : ℚ
  direction : String
deriving DecidableEq

/-- Modelled from the spec: each received AlertEvent is prepended to the
LiveAlertBuffer (newest-first), then the buffer is truncated to its cap of
20 push-origin entries. -/
def pushAlert (buf : List AlertEvent) (e : AlertEvent) : List AlertEvent :=
  (e :: buf).take 20

/-- Modelled from the spec: the displayed whales list is take(50,
concat(LiveAlertBuffer, snapshotList)) with snapshot entries whose
transactionHash already appears in the buffer removed before
concatenation. -/
def mergeAlerts (buf snapshot : List AlertEvent) : List AlertEvent :=
  (buf ++ snapshot.filter fun s =>
    !(buf.map AlertEvent.transactionHash).contains s.transactionHash).take 50

/-! ## Claims -/

/-- C1 counterexample: replay the end-to-end race of the spec — start on
overview with its fetch in flight, switch to gainers, let the gainers fetch
resolve, then let the superseded overview fetch resolve.  The source has no
staleness guard, so the final committed data belongs to overview while the
active view is gainers: the superseded resolution was committed, not
discarded. -/
theorem claim_C1_counterexample :
    (run (initialState Nat)
        [Ev.switch "gainers", Ev.resolve "gainers" (FetchResult.ok 2),
         Ev.resolve "overview" (FetchResult.ok 1)]).activeTab = "gainers" ∧
    (run (initialState Nat)
        [Ev.switch "gainers", Ev.resolve "gainers" (FetchResult.ok 2),
         Ev.resolve "overview" (FetchResult.ok 1)]).data = some ("overview", 1) ∧
    (run (initialState Nat)
        [Ev.switch "gainers", Ev.resolve "gainers" (FetchResult.ok 2),
         Ev.resolve "overview" (FetchResult.ok 1)]).data ≠ some ("gainers", 2) := by
  refine ⟨rfl, rfl, ?_⟩
  decide

/-- C1 amended: resolutions are never discarded.  Any successful resolution
commits its payload to the exposed data state unconditionally — in
particular a fetch issued for a view different from the currently active one
still commits — so the committed FetchState belongs to whichever fetch
resolved last, not necessarily to the view active at resolution time. -/
theorem claim_C1_theorem {α : Type} (s : AppState α) (v : String) (p : α)
    (_hne : v ≠ s.activeTab) :
    (step s (Ev.resolve v (FetchResult.ok p))).data = some (v, p) ∧
    (step s (Ev.resolve v (FetchResult.ok p))).activeTab = s.activeTab := by
  exact ⟨rfl, rfl⟩

/-- C1 witness: a stale overview-tagged resolution arriving while gainers is
pending commits, concretely. -/
theorem claim_C1_witness :
    (step { activeTab := "gainers", loading := true, data := none, error := none,
            pending := ["gainers", "overview"] }
        (Ev.resolve "overview" (FetchResult.ok (7 : Nat)))).data = some ("overview", 7) ∧
    (step { activeTab := "gainers", loading := true, data := none, error := none,
            pending := ["gainers", "overview"] }
        (Ev.resolve "overview" (FetchResult.ok (7 : Nat)))).activeTab = "gainers" :=
  claim_C1_theorem
    { activeTab := "gainers", loading := true, data := none, error := none,
      pending := ["gainers", "overview"] } "overview" 7 (by decide)

/-- C2: properties of the spec-modelled whales merge.  With hash-distinct
buffer and snapshot, the merged rendered list repeats no transactionHash;
the merged list always puts the (at most 50) buffer entries ahead of the
deduplicated snapshot entries; folding any pushed-event sequence into a
buffer within cap keeps it within the cap of 20; and the merged display
list never exceeds 50 entries. -/
theorem claim_C2_theorem :
    (∀ buf snapshot : List AlertEvent,
      (buf.map AlertEvent.transactionHash).Nodup →
      (snapshot.map AlertEvent.transactionHash).Nodup →
      ((mergeAlerts buf snapshot).map AlertEvent.transactionHash).Nodup) ∧
    (∀ buf snapshot : List AlertEvent,
      mergeAlerts buf snapshot =
        buf.take 50 ++ (snapshot.filter fun s =>
          !(buf.map AlertEvent.transactionHash).contains s.transactionHash).take
            (50 - buf.length)) ∧
    (∀ buf evs : List AlertEvent,
      buf.length ≤ 20 → (evs.foldl pushAlert buf).length ≤ 20) ∧
    (∀ buf snapshot : List AlertEvent, (mergeAlerts buf snapshot).length ≤ 50) := by
  refine ⟨?_, ?_, ?_, ?_⟩
  · intro buf snapshot hb hs
    have hnodup :
        ((buf ++ snapshot.filter fun s =>
          !(buf.map AlertEvent.transactionHash).contains s.transactionHash).map
            AlertEvent.transactionHash).Nodup := by
      rw [List.map_append]
      refine List.nodup_append.mpr ⟨hb, ?_, ?_⟩
      · exact hs.sublist ((List.filter_sublist _).map _)
      · intro x hx hx'
        rcases List.mem_map.mp hx' with ⟨s, hsmem, hshash⟩
        rcases List.mem_filter.mp hsmem with ⟨_, hpred⟩
        rw [Bool.not_eq_true', ← Bool.not_eq_true] at hpred
        have hmem : s.transactionHash ∈ buf.map AlertEvent.transactionHash := hshash ▸ hx
        exact hpred (by simpa [List.contains, List.elem_iff] using hmem)
    exact hnodup.sublist ((List.take_sublist _ _).map _)
  · intro buf snapshot
    rw [mergeAlerts, List.take_append_eq_append_take]
  · intro buf evs
    induction evs generalizing buf with
    | nil => intro h; exact h
    | cons e evs ih =>
      intro _
      exact ih (pushAlert buf e) (le_trans (List.length_take_le _ _) (by norm_num))
  · intro buf snapshot
    exact List.length_take_le _ _

/-- C2 witness: the spec's end-to-end whales scenario — snapshot holds trades
A, B, C; pushes D then A arrive; the merged rendered list has no repeated
transactionHash.  Applied at the concrete buffer and snapshot. -/
theorem claim_C2_witness :
    ((mergeAlerts
        [⟨"A", 2, 5000, "buy"⟩, ⟨"D", 3, 9000, "sell"⟩]
        [⟨"A", 2, 5000, "buy"⟩, ⟨"B", 1, 2000, "buy"⟩, ⟨"C", 0, 1500, "sell"⟩]).map
      AlertEvent.transactionHash).Nodup :=
  claim_C2_theorem.1
    [⟨"A", 2, 5000, "buy"⟩, ⟨"D", 3, 9000, "sell"⟩]
    [⟨"A", 2, 5000, "buy"⟩, ⟨"B", 1, 2000, "buy"⟩, ⟨"C", 0, 1500, "sell"⟩]
    (by decide) (by decide)

/-- C3: a non-2xx response makes fetchJson fail with an error carrying the
HTTP status; a transport failure fails likewise (the rejection propagates);
and the controller's catch block maps every failed resolution to the one
constant user-facing message, independent of the raw cause. -/
theorem claim_C3_theorem :
    (∀ (α : Type) (status : Nat) (body : Except String α),
      ¬(200 ≤ status ∧ status ≤ 299) →
      fetchJson (FetchOutcome.httpResponse status body) =
        Except.error ("API error: " ++ toString status)) ∧
    (∀ (α : Type) (m : String),
      fetchJson (α := α) (FetchOutcome.transportFailure m) = Except.error m) ∧
    (∀ (α : Type) (s : AppState α) (v raw : String),
      (step s (Ev.resolve v (FetchResult.err raw))).error = some fetchErrorMessage) := by
  refine ⟨?_, ?_, ?_⟩
  · intro α status body h
    simp only [fetchJson]
    rw [if_neg h]
  · intro α m
    rfl
  · intro α s v raw
    rfl

/-- C3 witness: an HTTP 500 response fails with the status in the error, and
a failed resolution commits exactly the constant message. -/
theorem claim_C3_witness :
    fetchJson (FetchOutcome.httpResponse 500 (Except.ok (0 : Nat))) =
      Except.error "API error: 500" ∧
    (step (initialState Nat) (Ev.resolve "overview" (FetchResult.err "boom"))).error =
      some "Failed to load data. Please try again." := by
  constructor
  · rw [claim_C3_theorem.1 Nat 500 (Except.ok 0) (by decide)]
    rfl
  · rw [claim_C3_theorem.2.2 Nat (initialState Nat) "overview" "boom"]
    rfl

/-- C4 counterexample: formatChange at -500.  The sign variable of the
source is the empty string for negative input, and the minus sign is
rendered by toFixed after the dollar sign, so the output is the string
dollar-minus-500, not minus-dollar-500 as the claim states. -/
theorem claim_C4_counterexample :
    formatChange (some (-500)) = "$-500" ∧ formatChange (some (-500)) ≠ "-$500" := by
  have h : formatChange (some (-500)) = "$-500" := by
    norm_num [formatChange, jsToFixed, jsToFixedNonneg]
    decide
  exact ⟨h, by rw [h]; decide⟩

/-- C4 amended: formatChange scales by magnitude at the 1e6 and 1e3
thresholds with 1 decimal, uses 0 decimals below 1e3, returns the
placeholder for null input, and prefixes a plus sign exactly when the input
is nonnegative — a negative input gets no prefix and its minus sign appears
after the dollar sign, so formatSignedDelta(-500) is the string
dollar-minus-500. -/
theorem claim_C4_theorem :
    formatChange none = "—" ∧
    formatChange (some (-500)) = "$-500" ∧
    (∀ n : ℚ, 1000000 ≤ |n| →
      formatChange (some n) =
        (if 0 ≤ n then "+" else "") ++ "$" ++ jsToFixed (n / 1000000) 1 ++ "M") ∧
    (∀ n : ℚ, |n| < 1000000 → 1000 ≤ |n| →
      formatChange (some n) =
        (if 0 ≤ n then "+" else "") ++ "$" ++ jsToFixed (n / 1000) 1 ++ "K") ∧
    (∀ n : ℚ, |n| < 1000 →
      formatChange (some n) = (if 0 ≤ n then "+" else "") ++ "$" ++ jsToFixed n 0) := by
  refine ⟨rfl, ?_, ?_, ?_, ?_⟩
  · norm_num [formatChange, jsToFixed, jsToFixedNonneg]
    decide
  · intro n h
    simp only [formatChange]
    rw [if_pos h]
  · intro n h1 h2
    simp only [formatChange]
    rw [if_neg (not_le.mpr h1), if_pos h2]
  · intro n h
    simp only [formatChange]
    rw [if_neg (not_le.mpr (lt_of_lt_of_le h (by norm_num))), if_neg (not_le.mpr h)]

/-- C4 witness: the sub-1e3 branch applied at 500 gives plus-dollar-500. -/
theorem claim_C4_witness : formatChange (some 500) = "+$500" := by
  have h := claim_C4_theorem.2.2.2.2 500 (by norm_num)
  rw [h]
  norm_num [jsToFixed, jsToFixedNonneg]
  decide

/-- C5 counterexample: timeAgo is not independent of the moment of
evaluation.  For the same timestamp input, evaluating at clock 0 and at
clock 120000 (two minutes later) returns different strings, refuting that
all three formatters return the same string at different moments. -/
theorem claim_C5_counterexample :
    timeAgo 0 (some 0) = "just now" ∧ timeAgo 120000 (some 0) = "2m ago" ∧
    timeAgo 0 (some 0) ≠ timeAgo 120000 (some 0) := by
  have h1 : timeAgo 0 (some 0) = "just now" := by
    norm_num [timeAgo]
  have h2 : timeAgo 120000 (some 0) = "2m ago" := by
    norm_num [timeAgo]
    decide
  exact ⟨h1, h2, by rw [h1, h2]; decide⟩

/-- C5 amended: formatNumber and formatChange are deterministic and
clock-independent — at any two moments they return the same string on the
same input — while timeAgo is deterministic only as a function of the pair
(evaluation moment, timestamp): there are moments at which it returns
different strings for the same timestamp. -/
theorem claim_C5_theorem :
    (∀ (c₁ c₂ : ℚ) (n : Option ℚ), formatNumberAt c₁ n = formatNumberAt c₂ n) ∧
    (∀ (c₁ c₂ : ℚ) (n : Option ℚ), formatChangeAt c₁ n = formatChangeAt c₂ n) ∧
    (∃ (c₁ c₂ : ℚ) (t : Option ℚ), timeAgo c₁ t ≠ timeAgo c₂ t) := by
  refine ⟨fun _ _ _ => rfl, fun _ _ _ => rfl, 0, 120000, some 0, ?_⟩
  have h1 : timeAgo 0 (some 0) = "just now" := by
    norm_num [timeAgo]
  have h2 : timeAgo 120000 (some 0) = "2m ago" := by
    norm_num [timeAgo]
    decide
  rw [h1, h2]
  decide

/-- C6: formatNumber returns the placeholder for null, and magnitude-scales
exactly at the claimed thresholds with the claimed decimal counts; in
particular 2500000 renders as dollar-2.5M and 0.001 renders in the
6-decimal form. -/
theorem claim_C6_theorem :
    formatNumber none = "—" ∧
    formatNumber (some 2500000) = "$2.5M" ∧
    formatNumber (some (1 / 1000)) = "$0.001000" ∧
    (∀ n : ℚ, 1000000000 ≤ n →
      formatNumber (some n) = "$" ++ jsToFixed (n / 1000000000) 2 ++ "B") ∧
    (∀ n : ℚ, n < 1000000000 → 1000000 ≤ n →
      formatNumber (some n) = "$" ++ jsToFixed (n / 1000000) 1 ++ "M") ∧
    (∀ n : ℚ, n < 1000000 → 1000 ≤ n →
      formatNumber (some n) = "$" ++ jsToFixed (n / 1000) 1 ++ "K") ∧
    (∀ n : ℚ, n < 1000 → 1 ≤ n → formatNumber (some n) = "$" ++ jsToFixed n 2) ∧
    (∀ n : ℚ, n < 1 → 1 / 100 ≤ n → formatNumber (some n) = "$" ++ jsToFixed n 4) ∧
    (∀ n : ℚ, n < 1 / 100 → formatNumber (some n) = "$" ++ jsToFixed n 6) := by
  refine ⟨rfl, ?_, ?_, ?_, ?_, ?_, ?_, ?_, ?_⟩
  · norm_num [formatNumber, jsToFixed, jsToFixedNonneg]
    decide
  · norm_num [formatNumber, jsToFixed, jsToFixedNonneg]
    decide
  · intro n h
    simp only [formatNumber]
    rw [if_pos h]
  · intro n h1 h2
    simp only [formatNumber]
    rw [if_neg (not_le.mpr h1), if_pos h2]
  · intro n h1 h2
    simp only [formatNumber]
    rw [if_neg (not_le.mpr (lt_of_lt_of_le h1 (by norm_num))),
      if_neg (not_le.mpr h1), if_pos h2]
  · intro n h1 h2
    simp only [formatNumber]
    rw [if_neg (not_le.mpr (lt_of_lt_of_le h1 (by norm_num))),
      if_neg (not_le.mpr (lt_of_lt_of_le h1 (by norm_num))),
      if_neg (not_le.mpr h1), if_pos h2]
  · intro n h1 h2
    simp only [formatNumber]
    rw [if_neg (not_le.mpr (lt_of_lt_of_le h1 (by norm_num))),
      if_neg (not_le.mpr (lt_of_lt_of_le h1 (by norm_num))),
      if_neg (not_le.mpr (lt_of_lt_of_le h1 (by norm_num))),
      if_neg (not_le.mpr h1), if_pos h2]
  · intro n h
    simp only [formatNumber]
    rw [if_neg (not_le.mpr (lt_of_lt_of_le h (by norm_num))),
      if_neg (not_le.mpr (lt_of_lt_of_le h (by norm_num))),
      if_neg (not_le.mpr (lt_of_lt_of_le h (by norm_num))),
      if_neg (not_le.mpr (lt_of_lt_of_le h (by norm_num))),
      if_neg (not_le.mpr h)]

/-- C6 witness: the B branch applied at 3e9 renders with 2 decimals. -/
theorem claim_C6_witness : formatNumber (some 3000000000) = "$3.00B" := by
  have h := claim_C6_theorem.2.2.2.1 3000000000 (by norm_num)
  rw [h]
  norm_num [jsToFixed, jsToFixedNonneg]
  decide

/-- C7 counterexample: the spec's enumerated view set contains whales, but
whales is not among the selectable tab identifiers of the source and drives
no fetchData branch; likewise topics, active and creators.  The claimed
ten-element set is not the source's view set. -/
theorem claim_C7_counterexample :
    "whales" ∈ specViewIds ∧ "whales" ∉ TABS ∧ queryFor "whales" = none ∧
    "topics" ∈ specViewIds ∧ "topics" ∉ TABS ∧ queryFor "topics" = none := by
  refine ⟨by decide, by decide, rfl, by decide, by decide, rfl⟩

/-- C7 amended: the fixed build-time view set of the source is the
six-element TABS list.  The initial view overview belongs to it; every
member drives a corresponding gateway query; and along any event trace whose
switches all target TABS members — which is all the rendered tab bar can
produce — the active view stays inside TABS. -/
theorem claim_C7_theorem :
    ("overview" ∈ TABS ∧ (initialState Nat).activeTab = "overview") ∧
    (∀ v ∈ TABS, (queryFor v).isSome = true) ∧
    (∀ (α : Type) (s : AppState α) (evs : List (Ev α)),
      s.activeTab ∈ TABS → (∀ e ∈ evs, evTargetsTabs e = true) →
      (run s evs).activeTab ∈ TABS) := by
  refine ⟨⟨by decide, rfl⟩, ?_, ?_⟩
  · intro v hv
    fin_cases hv <;> rfl
  · intro α s evs
    induction evs generalizing s with
    | nil => intro h _; exact h
    | cons e evs ih =>
      intro hs he
      have hstep : (step s e).activeTab ∈ TABS := by
        cases e with
        | switch v =>
          have hv : TABS.contains v = true := he (Ev.switch v) (List.mem_cons_self _ _)
          have hv' : v ∈ TABS := by simpa [List.contains, List.elem_iff] using hv
          simp only [step]
          by_cases hc : v = s.activeTab
          · rw [if_pos hc]; exact hs
          · rw [if_neg hc]
            by_cases hq : (queryFor v).isSome
            · rw [if_pos hq]; exact hv'
            · rw [if_neg hq]; exact hv'
        | resolve v r =>
          cases r with
          | ok p => exact hs
          | err m => exact hs
      exact ih (step s e) hstep (fun e' he' => he e' (List.mem_cons_of_mem _ he'))

/-- C7 witness: the traders view drives a query, and a trace switching from
overview to gainers keeps the active view inside TABS. -/
theorem claim_C7_witness :
    (queryFor "traders").isSome = true ∧
    (run (initialState Nat) [Ev.switch "gainers"]).activeTab ∈ TABS := by
  constructor
  · exact claim_C7_theorem.2.1 "traders" (by decide)
  · exact claim_C7_theorem.2.2 Nat (initialState Nat) [Ev.switch "gainers"]
      (by decide) (by decide)

/-- C8: switching to a different view of TABS re-runs the effect, which
immediately sets loading, clears any prior error, and pushes exactly one new
in-flight fetch for the new view, leaving the committed data untouched — in
particular re-entering a view just left issues a fresh fetch regardless of
what data is already committed. -/
theorem claim_C8_theorem {α : Type} (s : AppState α) (v : String)
    (hmem : v ∈ TABS) (hne : v ≠ s.activeTab) :
    step s (Ev.switch v) =
      { s with activeTab := v, loading := true, error := none,
               pending := v :: s.pending } := by
  have hq : (queryFor v).isSome = true := by
    fin_cases hmem <;> rfl
  simp only [step]
  rw [if_neg hne, if_pos hq]

/-- C8 witness: re-entering overview from gainers, with gainers data already
committed, still issues a fresh overview fetch and enters loading. -/
theorem claim_C8_witness :
    step { activeTab := "gainers", loading := false, data := some ("gainers", (5 : Nat)),
           error := some "Failed to load data. Please try again.", pending := [] }
        (Ev.switch "overview") =
      { activeTab := "overview", loading := true, data := some ("gainers", 5),
        error := none, pending := ["overview"] } := by
  rw [claim_C8_theorem
    { activeTab := "gainers", loading := false, data := some ("gainers", (5 : Nat)),
      error := some "Failed to load data. Please try again.", pending := [] }
    "overview" (by decide) (by decide)]

/-- C9: over a full failed cycle — a switch to any view followed by the
rejection of that view's fetch — the committed data is exactly what it was
before the cycle: the catch path never calls setData; only the loading and
error flags end up changed, with the error set to the constant message and
loading false. -/
theorem claim_C9_theorem {α : Type} (s : AppState α) (v raw : String) :
    (step (step s (Ev.switch v)) (Ev.resolve v (FetchResult.err raw))).data = s.data ∧
    (step (step s (Ev.switch v)) (Ev.resolve v (FetchResult.err raw))).error =
      some fetchErrorMessage ∧
    (step (step s (Ev.switch v)) (Ev.resolve v (FetchResult.err raw))).loading = false ∧
    (step (step s (Ev.switch v)) (Ev.resolve v (FetchResult.err raw))).activeTab =
      (step s (Ev.switch v)).activeTab := by
  have hdata : ∀ t : AppState α, (step t (Ev.resolve v (FetchResult.err raw))).data = t.data :=
    fun t => rfl
  have hswitch : (step s (Ev.switch v)).data = s.data := by
    simp only [step]
    by_cases hc : v = s.activeTab
    · rw [if_pos hc]
    · rw [if_neg hc]
      by_cases hq : (queryFor v).isSome
      · rw [if_pos hq]
      · rw [if_neg hq]
  exact ⟨(hdata (step s (Ev.switch v))).trans hswitch, rfl, rfl, rfl⟩

/-- C10: a timestamp at or after the current moment yields a nonpositive
elapsed difference, which falls in the first bucket, so timeAgo returns
just-now. -/
theorem claim_C10_theorem (now date : ℚ) (h : now ≤ date) :
    timeAgo now (some date) = "just now" := by
  simp only [timeAgo]
  rw [if_pos]
  rw [div_lt_iff₀ (by norm_num : (0 : ℚ) < 1000)]
  linarith

/-- C10 witness: a timestamp five seconds in the future renders as
just-now. -/
theorem claim_C10_witness :
    (0 : ℚ) ≤ 5000 ∧ timeAgo 0 (some 5000) = "just now" :=
  ⟨by norm_num, claim_C10_theorem 0 5000 (by norm_num)⟩
